import Mathlib

/-
Shallow embedding of `src/smart_alert.py` (Smart Motion Detection System).

Modelling conventions:
* Wall-clock values (from `time.time()`) are integers (seconds).
* Sleep durations appear in the event trace in milliseconds, so that the
  0.1 s poll delay, the 1 s error pause and the hold duration are all exact.
* The mutable module globals (`gpio_initialized`, `camera_initialized`,
  `picam2`, `email_configured`, the LED level, `motion_detected_time`)
  form the state record `SysState`.
* Each external, fallible effect (GPIO read, GPIO write, camera capture,
  SMTP transfer, path existence) is an input bit of the iteration: the
  driver either succeeds or raises, and the embedded code handles the
  outcome exactly where the Python `try`/`except` blocks do.
* The event trace records, in program order, every externally visible
  action of one loop iteration: actuator writes, the entry into
  `capture_image` and `send_email_alert` (call markers), filesystem
  actions, the SMTP connection attempt, sleeps, the update of the
  last-trigger time, and caught errors.
-/

namespace SmartAlert

/-- Outcome of the raw sensor read `GPIO.input(PIR_PIN)`: the driver either
returns a boolean level or raises. -/
inductive ReadResult where
  | ok (b : Bool)
  | error
  deriving DecidableEq, Repr

/-- The timing configuration of the detection loop.  In the source these are
the module constants `COOLDOWN_TIME = 2` and `LED_ON_TIME = 10` (seconds);
they are kept as parameters so the spec's quantification over durations can
be stated. -/
structure Config where
  cooldown : Int
  hold : Int
  deriving DecidableEq, Repr

/-- `COOLDOWN_TIME = 2` (src/smart_alert.py line 33). -/
def COOLDOWN_TIME : Int := 2

/-- `LED_ON_TIME = 10` (src/smart_alert.py line 32). -/
def LED_ON_TIME : Int := 10

/-- `MAX_RETRIES = 5` in `setup_gpio` (src/smart_alert.py line 161). -/
def MAX_RETRIES : Nat := 5

/-- The constants actually used by the program. -/
def defaultConfig : Config := { cooldown := COOLDOWN_TIME, hold := LED_ON_TIME }

/-- Externally visible actions of the program, in program order. -/
inductive Event where
  | ledSet (level : Bool)
  | ledError
  | captureInvoked
  | mkdirOutput
  | captureCall (path : String)
  | captureError
  | notifyInvoked
  | emailAttempt (path : String)
  | emailError
  | sleepMs (ms : Int)
  | recordTime (t : Int)
  | cycleError
  | cameraStopped
  | gpioReleased
  | cameraStopError
  | gpioCleanupError
  deriving DecidableEq, Repr

/-- The module-level mutable globals of src/smart_alert.py (lines 40-44)
together with the physical LED level and `motion_detected_time`
(line 443, local to `main`). -/
structure SysState where
  gpio_initialized : Bool
  camera_initialized : Bool
  picam2_present : Bool
  email_configured : Bool
  led : Bool
  motion_detected_time : Int
  deriving DecidableEq, Repr

/-- The environment of one iteration of the `while True` loop: the sensor
read outcome, the clock value `time.time()`, the timestamp string used for
the capture filename, and the success/failure of each fallible driver call
reached in this iteration. -/
structure CycleInput where
  sensor : ReadResult
  now : Int
  timestamp : String
  ledOnFault : Bool
  ledOffFault : Bool
  captureFault : Bool
  pathExists : Bool
  smtpFail : Bool
  deriving DecidableEq, Repr

/-- `SAVE_DIR` (src/smart_alert.py line 34), relative to the project dir. -/
def SAVE_DIR : String := "captured_images"

/-- The capture file path built in `capture_image` (lines 267-269):
`motion_<timestamp>.jpg` inside `SAVE_DIR`. -/
def capture_path (ts : String) : String :=
  SAVE_DIR ++ "/motion_" ++ ts ++ ".jpg"

/-- `led_on` (src/smart_alert.py lines 344-351): inside a `try`, write HIGH
to the LED pin only when `gpio_initialized`; any exception from the write is
caught and logged inside the function. -/
def led_on (s : SysState) (fault : Bool) : SysState × List Event :=
  if s.gpio_initialized then
    if fault then (s, [Event.ledError])
    else ({ s with led := true }, [Event.ledSet true])
  else (s, [])

/-- `led_off` (src/smart_alert.py lines 353-360): same shape as `led_on`
with LOW. -/
def led_off (s : SysState) (fault : Bool) : SysState × List Event :=
  if s.gpio_initialized then
    if fault then (s, [Event.ledError])
    else ({ s with led := false }, [Event.ledSet false])
  else (s, [])

/-- `capture_image` (src/smart_alert.py lines 256-279).  Returns the saved
path or `none`; the trace records entering the function, `os.makedirs`, and
the `picam2.capture_file` call.  When the camera is not initialized or the
camera object is absent it returns `None` before any filesystem action; a
capture exception is caught locally and surfaces as `None`. -/
def capture_image (s : SysState) (inp : CycleInput) : Option String × List Event :=
  if s.camera_initialized = false ∨ s.picam2_present = false then
    (none, [Event.captureInvoked])
  else
    let filepath := capture_path inp.timestamp
    if inp.captureFault then
      (none, [Event.captureInvoked, Event.mkdirOutput, Event.captureError])
    else
      (some filepath, [Event.captureInvoked, Event.mkdirOutput, Event.captureCall filepath])

/-- `send_email_alert` (src/smart_alert.py lines 284-339).  Returns the
success boolean; the trace records entering the function, the SMTP
connection attempt (`smtplib.SMTP(...)`, the only network action), and a
caught transport error.  Guards, in source order: not configured; falsy
path (`None` or empty); path does not exist.  All failures return `False`
without raising. -/
def send_email_alert (s : SysState) (image_path : Option String) (inp : CycleInput) :
    Bool × List Event :=
  if s.email_configured = false then (false, [Event.notifyInvoked])
  else
    match image_path with
    | none => (false, [Event.notifyInvoked])
    | some p =>
      if p = "" then (false, [Event.notifyInvoked])
      else if inp.pathExists = false then (false, [Event.notifyInvoked])
      else if inp.smtpFail then
        (false, [Event.notifyInvoked, Event.emailAttempt p, Event.emailError])
      else
        (true, [Event.notifyInvoked, Event.emailAttempt p])

/-- The list of required e-mail config fields (src/smart_alert.py line 73). -/
def required_fields : List String :=
  ["SENDER_EMAIL", "EMAIL_PASSWORD", "RECIPIENT_EMAIL"]

/-- Dictionary update `email_config[key] = value`. -/
def setKey (cfg : List (String × String)) (k v : String) : List (String × String) :=
  if cfg.any fun p => p.1 = k then
    cfg.map fun p => if p.1 = k then (k, v) else p
  else cfg ++ [(k, v)]

/-- Dictionary read `email_config.get(key)`. -/
def envLookup (cfg : List (String × String)) (k : String) : Option String :=
  (cfg.find? fun p => p.1 = k).map fun p => p.2

/-- Whitespace for the purposes of Python's `str.strip()`. -/
def isSpaceChar (c : Char) : Bool :=
  c = ' ' || c = '\t' || c = '\n' || c = '\r'

/-- `str.strip()` on the character list. -/
def trimChars (cs : List Char) : List Char :=
  ((cs.dropWhile isSpaceChar).reverse.dropWhile isSpaceChar).reverse

/-- `str.strip()`. -/
def strTrim (s : String) : String := String.mk (trimChars s.data)

/-- `str.startswith(pre)`. -/
def strStarts (s pre : String) : Bool := pre.data.isPrefixOf s.data

/-- `line.split('=', 1)`: split at the first `=`, `none` when the line has
no `=`. -/
def splitOnceEq : List Char → Option (List Char × List Char)
  | [] => none
  | c :: rest =>
    if c = '=' then some ([], rest)
    else
      match splitOnceEq rest with
      | none => none
      | some kv => some (c :: kv.1, kv.2)

/-- One line of the `.env` parse loop (src/smart_alert.py lines 61-70):
strip, skip blank lines and `#` comments, and on a line containing `=`
split once and store the stripped key/value pair. -/
def parse_env_line (cfg : List (String × String)) (raw : String) : List (String × String) :=
  let line := trimChars raw.data
  match line with
  | [] => cfg
  | c :: _ =>
    if c = '#' then cfg
    else
      match splitOnceEq line with
      | none => cfg
      | some kv =>
        setKey cfg (String.mk (trimChars kv.1)) (String.mk (trimChars kv.2))

/-- A required field counts as missing when absent, empty, or retaining a
placeholder (`startswith('your_')`) — src/smart_alert.py line 74. -/
def fieldMissing (cfg : List (String × String)) (f : String) : Bool :=
  match envLookup cfg f with
  | none => true
  | some v => v = "" || strStarts v "your_"

/-- `load_email_config` (src/smart_alert.py lines 49-91): returns the value
of `email_configured` together with the parsed `email_config` dictionary.
Missing file, or any required field missing/empty/placeholder, leaves
notifications disabled. -/
def load_email_config (fileExists : Bool) (lines : List String) :
    Bool × List (String × String) :=
  if fileExists = false then (false, [])
  else
    let cfg := lines.foldl parse_env_line []
    let missing := required_fields.filter (fieldMissing cfg)
    if missing.isEmpty then (true, cfg) else (false, cfg)

/-- The accepted-trigger block of `main` (src/smart_alert.py lines 454-480):
LED on, capture, conditional e-mail (only when a path was produced and
`email_configured`), blocking hold `time.sleep(LED_ON_TIME)`, LED off,
then `motion_detected_time = current_time` where `current_time` was read at
line 450, before the cycle. -/
def detection_cycle (cfg : Config) (s : SysState) (inp : CycleInput) : SysState × List Event :=
  let t := inp.now
  let r1 := led_on s inp.ledOnFault
  let r2 := capture_image r1.1 inp
  let notifyEvs :=
    match r2.1 with
    | none => []
    | some p =>
      if r1.1.email_configured then (send_email_alert r1.1 (some p) inp).2 else []
  let r3 := led_off r1.1 inp.ledOffFault
  ({ r3.1 with motion_detected_time := t },
    r1.2 ++ r2.2 ++ notifyEvs ++ [Event.sleepMs (cfg.hold * 1000)] ++ r3.2
      ++ [Event.recordTime t])

/-- One iteration of the `while True` loop body, i.e. the inner
`try`/`except` (src/smart_alert.py lines 447-488): a raw sensor read that
raises is caught at the cycle boundary (log, `time.sleep(1)`); otherwise,
when the sensor is active and `current_time - motion_detected_time >
COOLDOWN_TIME`, the detection cycle runs; every non-raising iteration ends
with the 0.1 s poll delay. -/
def loop_iteration (cfg : Config) (s : SysState) (inp : CycleInput) : SysState × List Event :=
  match inp.sensor with
  | ReadResult.error => (s, [Event.cycleError, Event.sleepMs 1000])
  | ReadResult.ok active =>
    if active then
      if inp.now - s.motion_detected_time > cfg.cooldown then
        let r := detection_cycle cfg s inp
        (r.1, r.2 ++ [Event.sleepMs 100])
      else (s, [Event.sleepMs 100])
    else (s, [Event.sleepMs 100])

/-- The loop run over a finite schedule of iteration environments; the
total function witnesses that no iteration lets an exception escape. -/
def run_loop (cfg : Config) : SysState → List CycleInput → SysState × List Event
  | s, [] => (s, [])
  | s, inp :: rest =>
    let r1 := loop_iteration cfg s inp
    let r2 := run_loop cfg r1.1 rest
    (r2.1, r1.2 ++ r2.2)

/-- Wall clock at the moment `motion_detected_time = current_time` executes
(line 478): the trigger read time plus the blocking `time.sleep(LED_ON_TIME)`
hold (idealized exact sleep; real elapsed time is at least this). -/
def cycle_end_time (cfg : Config) (t : Int) : Int := t + cfg.hold

/-- The loop state on entry (src/smart_alert.py line 443): the loop is only
reached with GPIO initialized, the LED driven LOW by `setup_gpio`
(line 182), and `motion_detected_time = 0`. -/
def initial_loop_state (cameraOk emailOk : Bool) : SysState :=
  { gpio_initialized := true
    camera_initialized := cameraOk
    picam2_present := cameraOk
    email_configured := emailOk
    led := false
    motion_detected_time := 0 }

/-- Which of the three guarded cleanup steps fail (driver exceptions). -/
structure CleanupFaults where
  ledFault : Bool
  cameraFault : Bool
  gpioFault : Bool
  deriving DecidableEq, Repr

/-- All cleanup steps succeed. -/
def noCleanupFaults : CleanupFaults :=
  { ledFault := false, cameraFault := false, gpioFault := false }

/-- `cleanup` (src/smart_alert.py lines 365-390): three independently
guarded steps — drive LED LOW (bare `except: pass`), stop the camera
(exception logged), `GPIO.cleanup()` (exception logged).  None of the
readiness globals is reset by the function. -/
def cleanup (s : SysState) (f : CleanupFaults) : SysState × List Event :=
  let r1 :=
    if s.gpio_initialized then
      if f.ledFault then (s, ([] : List Event))
      else ({ s with led := false }, [Event.ledSet false])
    else (s, [])
  let e2 :=
    if r1.1.camera_initialized ∧ r1.1.picam2_present then
      if f.cameraFault then [Event.cameraStopError] else [Event.cameraStopped]
    else []
  let e3 :=
    if r1.1.gpio_initialized then
      if f.gpioFault then [Event.gpioCleanupError] else [Event.gpioReleased]
    else []
  (r1.1, r1.2 ++ e2 ++ e3)

/-- How the `main()` call at the entry point terminates.  `returned` is a
normal return; `raisedException` is an `Exception` reaching the top level
(caught by the `except Exception` arm, line 501); `raisedSystemExit` is a
`SystemExit` propagating out of `main` — raised by `sys.exit` in the
signal handler, it is caught neither by the loop's `except Exception`
(line 485) nor `except KeyboardInterrupt` (line 490) nor the entry
point's `except Exception`. -/
inductive MainResult where
  | returned (code : Int)
  | raisedException
  | raisedSystemExit (code : Int)
  deriving DecidableEq, Repr

/-- `signal_handler` (src/smart_alert.py lines 395-399): run `cleanup`,
then `sys.exit(0)`, which raises `SystemExit(0)` out of the handler into
whatever frame of `main` was executing. -/
def signal_handler (s : SysState) (f : CleanupFaults) : SysState × MainResult :=
  let r := cleanup s f
  (r.1, MainResult.raisedSystemExit 0)

/-- `setup_gpio` (src/smart_alert.py lines 157-218): up to `MAX_RETRIES`
attempts; returns `True` at the first success, `False` after all five
fail.  `attempts` lists the outcome each try would have. -/
def setup_gpio (attempts : List Bool) : Bool :=
  (attempts.take MAX_RETRIES).any fun a => a

/-- The startup portion of `main` (src/smart_alert.py lines 407-493):
returns the function's return code paired with whether the detection loop
was entered.  GPIO failure returns 1 before the loop; save-directory
failure returns 1 before the loop; otherwise the loop runs and `main`
returns 0 on interrupt. -/
def mainOutcome (gpioAttempts : List Bool) (mkdirOk : Bool) : Int × Bool :=
  if setup_gpio gpioAttempts = false then (1, false)
  else if mkdirOk = false then (1, false)
  else (0, true)

/-- The binding of the name `exit_code` when the entry point's `finally`
block runs (src/smart_alert.py lines 498-508): bound by the assignment
`exit_code = main()` on a normal return, bound to 1 by the
`except Exception` arm, and left unbound when a `SystemExit` propagates
past both the assignment and that arm. -/
def exitCodeBinding : MainResult → Option Int
  | MainResult.returned c => some c
  | MainResult.raisedException => some 1
  | MainResult.raisedSystemExit _ => none

/-- The `__main__` entry point (src/smart_alert.py lines 498-508): the
`finally` block runs `sys.exit(exit_code)`.  When `exit_code` is bound the
process exits with that status; when it is unbound (a `SystemExit` from
the signal handler propagated here) the reference raises `NameError`,
which replaces the in-flight `SystemExit` and terminates the interpreter
with a traceback and status 1. -/
def entry_exit_code (r : MainResult) : Int :=
  match exitCodeBinding r with
  | some c => c
  | none => 1

/-- Whether the trace contains the entry into `send_email_alert`. -/
def notifierInvoked (evs : List Event) : Bool :=
  evs.any fun e =>
    match e with
    | Event.notifyInvoked => true
    | _ => false

/-- Whether the trace contains an SMTP connection attempt. -/
def attemptsNetwork (evs : List Event) : Bool :=
  evs.any fun e =>
    match e with
    | Event.emailAttempt _ => true
    | _ => false

/-- Whether the trace contains a logged cleanup-step error. -/
def cleanupErrorLogged (evs : List Event) : Bool :=
  evs.any fun e =>
    match e with
    | Event.cameraStopError => true
    | Event.gpioCleanupError => true
    | _ => false

/-! ## Helper lemmas -/

theorem strdata_append (a b : String) : (a ++ b).data = a.data ++ b.data := rfl

theorem capture_path_ne (ts : String) : ¬ (capture_path ts = "") := by
  intro h
  have h2 : (capture_path ts).data = ("" : String).data := by rw [h]
  simp [capture_path, SAVE_DIR, strdata_append] at h2

theorem led_on_fst_fields (s : SysState) (f : Bool) :
    ((led_on s f).1).gpio_initialized = s.gpio_initialized ∧
    ((led_on s f).1).camera_initialized = s.camera_initialized ∧
    ((led_on s f).1).picam2_present = s.picam2_present ∧
    ((led_on s f).1).email_configured = s.email_configured ∧
    ((led_on s f).1).motion_detected_time = s.motion_detected_time := by
  unfold led_on
  split
  · split <;> simp
  · simp

theorem led_off_fst_fields (s : SysState) (f : Bool) :
    ((led_off s f).1).gpio_initialized = s.gpio_initialized ∧
    ((led_off s f).1).camera_initialized = s.camera_initialized ∧
    ((led_off s f).1).picam2_present = s.picam2_present ∧
    ((led_off s f).1).email_configured = s.email_configured ∧
    ((led_off s f).1).motion_detected_time = s.motion_detected_time := by
  unfold led_off
  split
  · split <;> simp
  · simp

theorem capture_image_unavailable (s : SysState) (inp : CycleInput)
    (h : s.camera_initialized = false ∨ s.picam2_present = false) :
    capture_image s inp = (none, [Event.captureInvoked]) := by
  unfold capture_image
  rw [if_pos h]

theorem captureInvoked_mem_capture (s : SysState) (inp : CycleInput) :
    Event.captureInvoked ∈ (capture_image s inp).2 := by
  unfold capture_image
  split
  · simp
  · split <;> simp

theorem loop_iteration_fst_fields (cfg : Config) (s : SysState) (inp : CycleInput) :
    ((loop_iteration cfg s inp).1).gpio_initialized = s.gpio_initialized ∧
    ((loop_iteration cfg s inp).1).camera_initialized = s.camera_initialized ∧
    ((loop_iteration cfg s inp).1).picam2_present = s.picam2_present ∧
    ((loop_iteration cfg s inp).1).email_configured = s.email_configured := by
  cases hsen : inp.sensor with
  | error => simp [loop_iteration, hsen]
  | ok b =>
    cases b with
    | false => simp [loop_iteration, hsen]
    | true =>
      by_cases hacc : inp.now - s.motion_detected_time > cfg.cooldown
      · by_cases hg : s.gpio_initialized <;>
          cases hf1 : inp.ledOnFault <;> cases hf2 : inp.ledOffFault <;>
          simp [loop_iteration, hsen, hacc, detection_cycle, led_on, led_off, hg, hf1, hf2]
      · simp [loop_iteration, hsen, hacc]

theorem captureInvoked_mem_iff (cfg : Config) (s : SysState) (inp : CycleInput) (b : Bool)
    (hs : inp.sensor = ReadResult.ok b) :
    Event.captureInvoked ∈ (loop_iteration cfg s inp).2 ↔
      (b = true ∧ inp.now - s.motion_detected_time > cfg.cooldown) := by
  cases b with
  | false => simp [loop_iteration, hs]
  | true =>
    by_cases hacc : inp.now - s.motion_detected_time > cfg.cooldown
    · simp only [loop_iteration, hs, if_pos hacc, if_pos trivial]
      simp [detection_cycle, List.mem_append, hacc, captureInvoked_mem_capture]
    · simp [loop_iteration, hs, hacc]

theorem iter_notify_free (cfg : Config) (s : SysState) (inp : CycleInput)
    (hcam : s.camera_initialized = false ∨ s.picam2_present = false) :
    notifierInvoked ((loop_iteration cfg s inp).2) = false ∧
    attemptsNetwork ((loop_iteration cfg s inp).2) = false := by
  cases hsen : inp.sensor with
  | error => simp [loop_iteration, hsen, notifierInvoked, attemptsNetwork]
  | ok b =>
    cases b with
    | false => simp [loop_iteration, hsen, notifierInvoked, attemptsNetwork]
    | true =>
      by_cases hacc : inp.now - s.motion_detected_time > cfg.cooldown
      · rcases hcam with h | h <;>
          by_cases hg : s.gpio_initialized <;>
          cases hf1 : inp.ledOnFault <;> cases hf2 : inp.ledOffFault <;>
          simp [loop_iteration, hsen, hacc, detection_cycle, led_on, led_off, hg, h,
            hf1, hf2, capture_image, notifierInvoked, attemptsNetwork]
      · simp [loop_iteration, hsen, hacc, notifierInvoked, attemptsNetwork]

theorem iter_network_free (cfg : Config) (s : SysState) (inp : CycleInput)
    (hem : s.email_configured = false) :
    attemptsNetwork ((loop_iteration cfg s inp).2) = false := by
  cases hsen : inp.sensor with
  | error => simp [loop_iteration, hsen, attemptsNetwork]
  | ok b =>
    cases b with
    | false => simp [loop_iteration, hsen, attemptsNetwork]
    | true =>
      by_cases hacc : inp.now - s.motion_detected_time > cfg.cooldown
      · by_cases hg : s.gpio_initialized <;>
          cases hf1 : inp.ledOnFault <;> cases hf2 : inp.ledOffFault <;>
          by_cases hcam : s.camera_initialized = false ∨ s.picam2_present = false <;>
          cases hf3 : inp.captureFault <;>
          simp [loop_iteration, hsen, hacc, detection_cycle, led_on, led_off, hg, hem,
            hf1, hf2, hf3, capture_image, attemptsNetwork, hcam]
      · simp [loop_iteration, hsen, hacc, attemptsNetwork]

theorem run_loop_notify_free (cfg : Config) (inps : List CycleInput) :
    ∀ s : SysState, s.camera_initialized = false ∨ s.picam2_present = false →
      notifierInvoked ((run_loop cfg s inps).2) = false ∧
      attemptsNetwork ((run_loop cfg s inps).2) = false := by
  induction inps with
  | nil =>
    intro s _
    simp [run_loop, notifierInvoked, attemptsNetwork]
  | cons a rest ih =>
    intro s h
    have hpres := loop_iteration_fst_fields cfg s a
    have hiter := iter_notify_free cfg s a h
    have h' : ((loop_iteration cfg s a).1).camera_initialized = false ∨
        ((loop_iteration cfg s a).1).picam2_present = false := by
      rcases h with h | h
      · exact Or.inl (hpres.2.1.trans h)
      · exact Or.inr (hpres.2.2.1.trans h)
    have hrest := ih (loop_iteration cfg s a).1 h'
    simp [run_loop, notifierInvoked, attemptsNetwork, List.any_append] at *
    exact ⟨⟨hiter.1, hrest.1⟩, hiter.2, hrest.2⟩

theorem run_loop_network_free (cfg : Config) (inps : List CycleInput) :
    ∀ s : SysState, s.email_configured = false →
      ((run_loop cfg s inps).1).email_configured = false ∧
      attemptsNetwork ((run_loop cfg s inps).2) = false := by
  induction inps with
  | nil =>
    intro s h
    simpa [run_loop, attemptsNetwork] using h
  | cons a rest ih =>
    intro s h
    have hpres := loop_iteration_fst_fields cfg s a
    have hiter := iter_network_free cfg s a h
    have h' : ((loop_iteration cfg s a).1).email_configured = false :=
      hpres.2.2.2.trans h
    have hrest := ih (loop_iteration cfg s a).1 h'
    simp [run_loop, attemptsNetwork, List.any_append] at *
    exact ⟨hrest.1, hiter, hrest.2⟩

/-- Definitional unfolding of `detection_cycle` (zeta-reduced). -/
theorem detection_cycle_eq (cfg : Config) (s : SysState) (inp : CycleInput) :
    detection_cycle cfg s inp =
      ({ (led_off (led_on s inp.ledOnFault).1 inp.ledOffFault).1 with
          motion_detected_time := inp.now },
       (led_on s inp.ledOnFault).2 ++ (capture_image (led_on s inp.ledOnFault).1 inp).2 ++
        (match (capture_image (led_on s inp.ledOnFault).1 inp).1 with
         | none => []
         | some p =>
           if ((led_on s inp.ledOnFault).1).email_configured then
             (send_email_alert (led_on s inp.ledOnFault).1 (some p) inp).2
           else []) ++
        [Event.sleepMs (cfg.hold * 1000)] ++
        (led_off (led_on s inp.ledOnFault).1 inp.ledOffFault).2 ++
        [Event.recordTime inp.now]) := rfl

theorem cycleError_notin_led_on (s : SysState) (f : Bool) :
    Event.cycleError ∉ (led_on s f).2 := by
  unfold led_on
  split
  · split <;> simp
  · simp

theorem cycleError_notin_led_off (s : SysState) (f : Bool) :
    Event.cycleError ∉ (led_off s f).2 := by
  unfold led_off
  split
  · split <;> simp
  · simp

theorem cycleError_notin_capture (s : SysState) (inp : CycleInput) :
    Event.cycleError ∉ (capture_image s inp).2 := by
  unfold capture_image
  split
  · simp
  · split <;> simp

theorem cycleError_notin_send (s : SysState) (p : Option String) (inp : CycleInput) :
    Event.cycleError ∉ (send_email_alert s p inp).2 := by
  unfold send_email_alert
  (repeat' split) <;> simp

theorem cycleError_notin_cycle (cfg : Config) (s : SysState) (inp : CycleInput) :
    Event.cycleError ∉ (detection_cycle cfg s inp).2 := by
  rw [detection_cycle_eq]
  intro hmem
  simp only [List.mem_append, List.mem_singleton] at hmem
  rcases hmem with ((((h | h) | h) | h) | h) | h
  · exact cycleError_notin_led_on _ _ h
  · exact cycleError_notin_capture _ _ h
  · rcases hp : (capture_image (led_on s inp.ledOnFault).1 inp).1 with _ | q
    · rw [hp] at h
      simp at h
    · rw [hp] at h
      by_cases hem : ((led_on s inp.ledOnFault).1).email_configured = true
      · simp only [hem, if_true] at h
        exact cycleError_notin_send _ _ _ h
      · simp [hem] at h
  · simp at h
  · exact cycleError_notin_led_off _ _ h
  · simp at h

/-! ## Claims -/

/-- C1: in every loop iteration, a motion trigger is accepted (the detection
cycle — actuator drive, capture attempt, conditional notification — runs,
marked by the entry into `capture_image`) if and only if the sensor reads
active and the elapsed time since the last accepted trigger strictly exceeds
the cooldown; when the sensor is active but within the cooldown the
iteration leaves the state unchanged and performs only the 0.1 s poll delay
(no actuator write, no capture, no notify call). -/
theorem c1_cooldown_gate (cfg : Config) (s : SysState) (inp : CycleInput) (b : Bool)
    (hs : inp.sensor = ReadResult.ok b) :
    (Event.captureInvoked ∈ (loop_iteration cfg s inp).2 ↔
      (b = true ∧ inp.now - s.motion_detected_time > cfg.cooldown))
    ∧ ((b = true ∧ inp.now - s.motion_detected_time ≤ cfg.cooldown) →
        loop_iteration cfg s inp = (s, [Event.sleepMs 100]))
    ∧ ((b = true ∧ inp.now - s.motion_detected_time > cfg.cooldown ∧
        s.gpio_initialized = true ∧ inp.ledOnFault = false) →
        Event.ledSet true ∈ (loop_iteration cfg s inp).2) := by
  refine ⟨captureInvoked_mem_iff cfg s inp b hs, ?_, ?_⟩
  · rintro ⟨hb, hle⟩
    subst hb
    have hacc : ¬ (inp.now - s.motion_detected_time > cfg.cooldown) := not_lt.mpr hle
    simp [loop_iteration, hs, hacc]
  · rintro ⟨hb, hacc, hg, hf⟩
    subst hb
    simp [loop_iteration, hs, hacc, detection_cycle, led_on, hg, hf, List.mem_append]

/-- Sample state for the C1 witness. -/
def w1s : SysState := initial_loop_state true true

/-- Sample iteration environment for the C1 witness: sensor active at
time 1, within the 2 s cooldown measured from the initial value 0. -/
def w1i : CycleInput :=
  { sensor := ReadResult.ok true, now := 1, timestamp := "t", ledOnFault := false,
    ledOffFault := false, captureFault := false, pathExists := true, smtpFail := false }

/-- C1 witness: concrete instantiation (active sensor within cooldown). -/
theorem c1_cooldown_gate_witness :
    (Event.captureInvoked ∈ (loop_iteration defaultConfig w1s w1i).2 ↔
      (true = true ∧ w1i.now - w1s.motion_detected_time > defaultConfig.cooldown))
    ∧ ((true = true ∧ w1i.now - w1s.motion_detected_time ≤ defaultConfig.cooldown) →
        loop_iteration defaultConfig w1s w1i = (w1s, [Event.sleepMs 100]))
    ∧ ((true = true ∧ w1i.now - w1s.motion_detected_time > defaultConfig.cooldown ∧
        w1s.gpio_initialized = true ∧ w1i.ledOnFault = false) →
        Event.ledSet true ∈ (loop_iteration defaultConfig w1s w1i).2) :=
  c1_cooldown_gate defaultConfig w1s w1i true rfl

/-- C2: within an accepted detection cycle the externally visible actions
happen in exactly this order: actuator driven active, capture attempted
(function entry, directory creation, file write), notification attempted
(function entry, SMTP connection — reached here because a path was produced
and notifications are enabled), the blocking hold, actuator driven
inactive, and finally the recording of the last-accepted-trigger time;
the iteration then performs the poll delay. -/
theorem c2_cycle_order (cfg : Config) (s : SysState) (inp : CycleInput)
    (hs : inp.sensor = ReadResult.ok true)
    (hacc : inp.now - s.motion_detected_time > cfg.cooldown)
    (hg : s.gpio_initialized = true)
    (hcam : s.camera_initialized = true) (hpc : s.picam2_present = true)
    (hem : s.email_configured = true)
    (h1 : inp.ledOnFault = false) (h2 : inp.ledOffFault = false)
    (h3 : inp.captureFault = false) (h4 : inp.pathExists = true)
    (h5 : inp.smtpFail = false) :
    (loop_iteration cfg s inp).2 =
      [Event.ledSet true, Event.captureInvoked, Event.mkdirOutput,
       Event.captureCall (capture_path inp.timestamp), Event.notifyInvoked,
       Event.emailAttempt (capture_path inp.timestamp),
       Event.sleepMs (cfg.hold * 1000), Event.ledSet false,
       Event.recordTime inp.now, Event.sleepMs 100]
    ∧ ((loop_iteration cfg s inp).1).motion_detected_time = inp.now := by
  have hp : ¬ (capture_path inp.timestamp = "") := capture_path_ne _
  simp [loop_iteration, hs, hacc, detection_cycle, led_on, led_off, capture_image,
    send_email_alert, hg, hcam, hpc, hem, h1, h2, h3, h4, h5, hp]

/-- Sample iteration environment for the C2 witness: an accepted trigger at
time 100 with every peripheral operation succeeding. -/
def w2i : CycleInput :=
  { sensor := ReadResult.ok true, now := 100, timestamp := "20240101_120000",
    ledOnFault := false, ledOffFault := false, captureFault := false,
    pathExists := true, smtpFail := false }

/-- C2 witness: concrete instantiation of the cycle-order theorem. -/
theorem c2_cycle_order_witness :
    (loop_iteration defaultConfig (initial_loop_state true true) w2i).2 =
      [Event.ledSet true, Event.captureInvoked, Event.mkdirOutput,
       Event.captureCall (capture_path w2i.timestamp), Event.notifyInvoked,
       Event.emailAttempt (capture_path w2i.timestamp),
       Event.sleepMs (defaultConfig.hold * 1000), Event.ledSet false,
       Event.recordTime w2i.now, Event.sleepMs 100]
    ∧ ((loop_iteration defaultConfig (initial_loop_state true true) w2i).1).motion_detected_time
        = w2i.now :=
  c2_cycle_order defaultConfig (initial_loop_state true true) w2i rfl (by decide) rfl rfl
    rfl rfl rfl rfl rfl rfl rfl

/-- Sample state for the C3 counterexample. -/
def w3s : SysState := initial_loop_state true true

/-- Sample iteration environment for the C3 counterexample: accepted
trigger whose actuator-drive write raises inside `led_on`. -/
def w3i : CycleInput :=
  { sensor := ReadResult.ok true, now := 100, timestamp := "t", ledOnFault := true,
    ledOffFault := false, captureFault := false, pathExists := true, smtpFail := false }

/-- C3 counterexample: an exception raised during the actuator drive of an
accepted cycle is caught inside `led_on` (the logged `ledError`), not at
the cycle boundary: the cycle still attempts the capture, there is no
1-second pause, and the iteration differs from the claimed
log-pause-resume behavior. -/
theorem c3_counterexample :
    Event.ledError ∈ (loop_iteration defaultConfig w3s w3i).2
    ∧ Event.captureInvoked ∈ (loop_iteration defaultConfig w3s w3i).2
    ∧ Event.sleepMs 1000 ∉ (loop_iteration defaultConfig w3s w3i).2
    ∧ Event.cycleError ∉ (loop_iteration defaultConfig w3s w3i).2
    ∧ loop_iteration defaultConfig w3s w3i ≠ (w3s, [Event.cycleError, Event.sleepMs 1000]) := by
  decide

/-- C3 (amended): exceptions inside the actuator drive, the capture and the
notification are each caught locally within those helpers and the cycle
runs to completion (the trigger time is still recorded); only an exception
that reaches the loop body itself (the raw sensor read) is caught at the
cycle boundary, logged, and followed by the 1-second pause, after which
polling resumes with the state unchanged; no exception from an iteration
ever escapes the loop. -/
theorem c3_cycle_error_handling (cfg : Config) (s : SysState) (inp : CycleInput) (b : Bool) :
    (inp.sensor = ReadResult.error →
      loop_iteration cfg s inp = (s, [Event.cycleError, Event.sleepMs 1000]))
    ∧ (inp.sensor = ReadResult.ok b →
        Event.cycleError ∉ (loop_iteration cfg s inp).2)
    ∧ (inp.sensor = ReadResult.ok true → inp.now - s.motion_detected_time > cfg.cooldown →
        Event.recordTime inp.now ∈ (loop_iteration cfg s inp).2) := by
  refine ⟨?_, ?_, ?_⟩
  · intro h
    simp [loop_iteration, h]
  · intro h
    cases b with
    | false => simp [loop_iteration, h]
    | true =>
      by_cases hacc : inp.now - s.motion_detected_time > cfg.cooldown
      · simp only [loop_iteration, h, if_pos hacc, if_pos trivial]
        intro hmem
        simp only [List.mem_append, List.mem_singleton] at hmem
        rcases hmem with h' | h'
        · exact cycleError_notin_cycle cfg s inp h'
        · simp at h'
      · simp [loop_iteration, h, hacc]
  · intro h hacc
    simp [loop_iteration, h, hacc, detection_cycle, List.mem_append]

/-- Sample iteration environment for the C3 witness: an accepted cycle in
which the capture driver raises (absorbed locally). -/
def w3wi : CycleInput :=
  { sensor := ReadResult.ok true, now := 50, timestamp := "t", ledOnFault := false,
    ledOffFault := false, captureFault := true, pathExists := true, smtpFail := false }

/-- C3 witness: concrete instantiation of the amended error-handling
theorem. -/
theorem c3_cycle_error_handling_witness :
    (w3wi.sensor = ReadResult.error →
      loop_iteration defaultConfig w3s w3wi = (w3s, [Event.cycleError, Event.sleepMs 1000]))
    ∧ (w3wi.sensor = ReadResult.ok true →
        Event.cycleError ∉ (loop_iteration defaultConfig w3s w3wi).2)
    ∧ (w3wi.sensor = ReadResult.ok true →
        w3wi.now - w3s.motion_detected_time > defaultConfig.cooldown →
        Event.recordTime w3wi.now ∈ (loop_iteration defaultConfig w3s w3wi).2) :=
  c3_cycle_error_handling defaultConfig w3s w3wi true

/-- C4 (code evaluated at the failing input): a graceful interrupt or
termination signal does NOT produce exit status 0 — `signal_handler`'s
`sys.exit(0)` raises `SystemExit(0)`, which propagates past every handler,
leaves `exit_code` unbound, and makes the entry point's
`sys.exit(exit_code)` raise `NameError`, so the process exits with
status 1.  The remaining legs of the claim do hold on the code: five
failed acquisition attempts make `main` return 1 without entering the
detection loop and the process exits 1; an uncaught exception at the top
level exits 1; a `main` return of 0 would exit 0. -/
theorem c4_exit_status_on_signal :
    (signal_handler (initial_loop_state true true) noCleanupFaults).2 =
      MainResult.raisedSystemExit 0
    ∧ exitCodeBinding
        ((signal_handler (initial_loop_state true true) noCleanupFaults).2) = none
    ∧ entry_exit_code
        ((signal_handler (initial_loop_state true true) noCleanupFaults).2) = 1
    ∧ entry_exit_code
        ((signal_handler (initial_loop_state true true) noCleanupFaults).2) ≠ 0
    ∧ mainOutcome [false, false, false, false, false] true = (1, false)
    ∧ entry_exit_code
        (MainResult.returned (mainOutcome [false, false, false, false, false] true).1) = 1
    ∧ entry_exit_code MainResult.raisedException = 1
    ∧ entry_exit_code (MainResult.returned 0) = 0 := by decide

/-- C5: when the capture capability is unavailable (camera not initialized
or camera object absent), `capture_image` returns `None` with no filesystem
action, and over any schedule of iterations the notifier is never entered
and no network connection is ever attempted. -/
theorem c5_no_capture_no_notify (s : SysState) (inp : CycleInput) (cfg : Config)
    (inps : List CycleInput)
    (hcam : s.camera_initialized = false ∨ s.picam2_present = false) :
    capture_image s inp = (none, [Event.captureInvoked])
    ∧ notifierInvoked ((run_loop cfg s inps).2) = false
    ∧ attemptsNetwork ((run_loop cfg s inps).2) = false :=
  ⟨capture_image_unavailable s inp hcam, (run_loop_notify_free cfg inps s hcam).1,
    (run_loop_notify_free cfg inps s hcam).2⟩

/-- Sample state for the C5 witness: camera failed at startup, e-mail
configured. -/
def w5s : SysState := initial_loop_state false true

/-- Sample schedule for the C5 witness: two accepted triggers. -/
def w5l : List CycleInput :=
  [{ sensor := ReadResult.ok true, now := 100, timestamp := "t1", ledOnFault := false,
     ledOffFault := false, captureFault := false, pathExists := true, smtpFail := false },
   { sensor := ReadResult.ok true, now := 200, timestamp := "t2", ledOnFault := false,
     ledOffFault := false, captureFault := false, pathExists := true, smtpFail := false }]

/-- C5 witness: concrete instantiation with two accepted triggers. -/
theorem c5_no_capture_no_notify_witness :
    capture_image w5s w2i = (none, [Event.captureInvoked])
    ∧ notifierInvoked ((run_loop defaultConfig w5s w5l).2) = false
    ∧ attemptsNetwork ((run_loop defaultConfig w5s w5l).2) = false :=
  c5_no_capture_no_notify w5s w2i defaultConfig w5l (Or.inl rfl)

/-- C6: an invalid notification configuration (a required field missing,
empty, or retaining a `your_` placeholder) leaves `email_configured` false;
`send_email_alert` returns failure without an SMTP connection whenever
notifications are disabled or the artifact path is absent/nonexistent; and
once disabled, no iteration of the loop ever re-enables notifications or
attempts a network connection. -/
theorem c6_notifications_disabled (fe : Bool) (lines : List String) (fld : String)
    (hf : fld ∈ required_fields)
    (hmiss : fieldMissing (lines.foldl parse_env_line []) fld = true)
    (s : SysState) (p : Option String) (inp : CycleInput)
    (hdis : s.email_configured = false)
    (s2 : SysState) (p2 : String) (inp2 : CycleInput)
    (hnex : inp2.pathExists = false)
    (cfg : Config) (s3 : SysState) (inps : List CycleInput)
    (hdis3 : s3.email_configured = false) :
    (load_email_config fe lines).1 = false
    ∧ send_email_alert s p inp = (false, [Event.notifyInvoked])
    ∧ ((send_email_alert s2 (some p2) inp2).1 = false
       ∧ attemptsNetwork ((send_email_alert s2 (some p2) inp2).2) = false)
    ∧ (((run_loop cfg s3 inps).1).email_configured = false
       ∧ attemptsNetwork ((run_loop cfg s3 inps).2) = false) := by
  refine ⟨?_, ?_, ?_, run_loop_network_free cfg inps s3 hdis3⟩
  · cases fe with
    | false => simp [load_email_config]
    | true =>
      cases hL : required_fields.filter (fieldMissing (lines.foldl parse_env_line [])) with
      | nil =>
        have hmem : fld ∈ required_fields.filter (fieldMissing (lines.foldl parse_env_line [])) :=
          List.mem_filter.mpr ⟨hf, hmiss⟩
        rw [hL] at hmem
        simp at hmem
      | cons a as => simp [load_email_config, hL]
  · simp [send_email_alert, hdis]
  · by_cases hem2 : s2.email_configured = false <;> by_cases hp2 : p2 = "" <;>
      simp [send_email_alert, hem2, hp2, hnex, attemptsNetwork]

/-- Sample disabled-notifications state for the C6 witness. -/
def w6s : SysState := initial_loop_state true false

/-- Sample iteration environment for the C6 witness: the artifact path does
not exist at send time. -/
def w6i : CycleInput :=
  { sensor := ReadResult.ok true, now := 100, timestamp := "t", ledOnFault := false,
    ledOffFault := false, captureFault := false, pathExists := false, smtpFail := false }

/-- Sample `.env` contents for the C6 witness: `RECIPIENT_EMAIL` retains
the placeholder. -/
def w6lines : List String :=
  ["SENDER_EMAIL=alice@example.com", "EMAIL_PASSWORD=secret",
   "RECIPIENT_EMAIL=your_email@example.com"]

/-- C6 witness: concrete instantiation. -/
theorem c6_notifications_disabled_witness :
    (load_email_config true w6lines).1 = false
    ∧ send_email_alert w6s (some "x") w2i = (false, [Event.notifyInvoked])
    ∧ ((send_email_alert (initial_loop_state true true) (some "img.jpg") w6i).1 = false
       ∧ attemptsNetwork
           ((send_email_alert (initial_loop_state true true) (some "img.jpg") w6i).2) = false)
    ∧ (((run_loop defaultConfig w6s w5l).1).email_configured = false
       ∧ attemptsNetwork ((run_loop defaultConfig w6s w5l).2) = false) :=
  c6_notifications_disabled true w6lines "RECIPIENT_EMAIL" (by decide) (by decide)
    w6s (some "x") w2i rfl (initial_loop_state true true) "img.jpg" w6i rfl
    defaultConfig w6s w5l rfl

/-- Sample iteration environment for C7: accepted trigger read at clock
100; with hold 10 the recording at the end of the cycle happens at
clock 110. -/
def w7i : CycleInput :=
  { sensor := ReadResult.ok true, now := 100, timestamp := "t", ledOnFault := false,
    ledOffFault := false, captureFault := false, pathExists := true, smtpFail := false }

/-- C7 counterexample: the value recorded as the last accepted trigger time
is the clock value sampled at the start of the cycle (100), not the current
time at the moment of recording, which lies a full hold duration later
(110, after `time.sleep(LED_ON_TIME)`). -/
theorem c7_counterexample :
    ((loop_iteration defaultConfig (initial_loop_state true true) w7i).1).motion_detected_time
      ≠ cycle_end_time defaultConfig w7i.now := by decide

/-- C7 (amended): at the end of every accepted detection cycle the value
recorded as the last accepted trigger time is the clock value read when the
trigger was accepted (start of the cycle); with a positive hold duration
this differs from the current time at the recording moment by exactly the
hold. -/
theorem c7_records_trigger_time (cfg : Config) (s : SysState) (inp : CycleInput)
    (hs : inp.sensor = ReadResult.ok true)
    (hacc : inp.now - s.motion_detected_time > cfg.cooldown)
    (hhold : 0 < cfg.hold) :
    ((loop_iteration cfg s inp).1).motion_detected_time = inp.now
    ∧ ((loop_iteration cfg s inp).1).motion_detected_time ≠ cycle_end_time cfg inp.now := by
  have h1 : ((loop_iteration cfg s inp).1).motion_detected_time = inp.now := by
    simp [loop_iteration, hs, hacc, detection_cycle]
  refine ⟨h1, ?_⟩
  rw [h1]
  unfold cycle_end_time
  omega

/-- C7 witness: concrete instantiation of the amended recording theorem. -/
theorem c7_records_trigger_time_witness :
    ((loop_iteration defaultConfig (initial_loop_state true true) w7i).1).motion_detected_time
      = w7i.now
    ∧ ((loop_iteration defaultConfig (initial_loop_state true true) w7i).1).motion_detected_time
      ≠ cycle_end_time defaultConfig w7i.now :=
  c7_records_trigger_time defaultConfig (initial_loop_state true true) w7i rfl (by decide)
    (by decide)

/-- C8: `cleanup` run twice in succession raises nothing (it is a total
function for every fault pattern), the second run logs no errors, the
actuator ends inactive, and each of the three steps is independently
guarded: the camera-stop and GPIO-release steps are both attempted (either
succeeding or logging) regardless of failures in the preceding steps.  The
hypothesis records the loop invariant that the LED can only have been
driven high through an initialized handle. -/
theorem c8_cleanup_idempotent (s : SysState) (f : CleanupFaults)
    (hInv : s.gpio_initialized = false → s.led = false) :
    ((cleanup (cleanup s f).1 noCleanupFaults).1).led = false
    ∧ cleanupErrorLogged ((cleanup (cleanup s f).1 noCleanupFaults).2) = false
    ∧ (s.gpio_initialized = true →
        (Event.gpioReleased ∈ (cleanup s f).2 ∨ Event.gpioCleanupError ∈ (cleanup s f).2))
    ∧ (s.camera_initialized = true → s.picam2_present = true →
        (Event.cameraStopped ∈ (cleanup s f).2 ∨ Event.cameraStopError ∈ (cleanup s f).2)) := by
  cases hg : s.gpio_initialized <;> cases hc : s.camera_initialized <;>
    cases hp : s.picam2_present <;> cases f1 : f.ledFault <;> cases f2 : f.cameraFault <;>
    cases f3 : f.gpioFault <;>
    simp [cleanup, noCleanupFaults, cleanupErrorLogged, hg, hc, hp, f1, f2, f3, hInv]

/-- Sample state for the C8 witness: everything acquired, LED left high. -/
def w8s : SysState :=
  { gpio_initialized := true, camera_initialized := true, picam2_present := true,
    email_configured := true, led := true, motion_detected_time := 50 }

/-- Sample fault pattern for the C8 witness: every step of the first
cleanup call fails. -/
def w8f : CleanupFaults := { ledFault := true, cameraFault := true, gpioFault := true }

/-- C8 witness: concrete instantiation with an all-faulting first call. -/
theorem c8_cleanup_idempotent_witness :
    ((cleanup (cleanup w8s w8f).1 noCleanupFaults).1).led = false
    ∧ cleanupErrorLogged ((cleanup (cleanup w8s w8f).1 noCleanupFaults).2) = false
    ∧ (w8s.gpio_initialized = true →
        (Event.gpioReleased ∈ (cleanup w8s w8f).2 ∨ Event.gpioCleanupError ∈ (cleanup w8s w8f).2))
    ∧ (w8s.camera_initialized = true → w8s.picam2_present = true →
        (Event.cameraStopped ∈ (cleanup w8s w8f).2 ∨ Event.cameraStopError ∈ (cleanup w8s w8f).2)) :=
  c8_cleanup_idempotent w8s w8f (by decide)

/-- Sample never-initialized (Failed handle) state for C9. -/
def w9s : SysState :=
  { gpio_initialized := false, camera_initialized := false, picam2_present := false,
    email_configured := false, led := false, motion_detected_time := 0 }

/-- Sample iteration environment for C9 in which the raw sensor read
raises. -/
def w9ir : CycleInput :=
  { sensor := ReadResult.error, now := 100, timestamp := "t", ledOnFault := false,
    ledOffFault := false, captureFault := false, pathExists := true, smtpFail := false }

/-- Sample iteration environment for C9 in which the sensor reads false. -/
def w9if : CycleInput :=
  { sensor := ReadResult.ok false, now := 100, timestamp := "t", ledOnFault := false,
    ledOffFault := false, captureFault := false, pathExists := true, smtpFail := false }

/-- C9 counterexample: on a Failed handle the program has no read guard —
a raising sensor read produces the cycle-boundary error handling (log and
1 s pause), observably different from the behavior of reading the neutral
value false (plain 0.1 s poll); the read is therefore not converted to
false as the claim states. -/
theorem c9_counterexample :
    loop_iteration defaultConfig w9s w9ir ≠ loop_iteration defaultConfig w9s w9if
    ∧ Event.cycleError ∈ (loop_iteration defaultConfig w9s w9ir).2 := by decide

/-- C9 (amended): on a Failed or Released handle every actuator write is a
safe no-op that does not raise (the `gpio_initialized` guard plus local
exception handler in `led_on`/`led_off`); there is no neutral-value guard
for reads — a raising sensor read is instead caught by the cycle-boundary
handler (log, 1 s pause, state unchanged), and the detection loop is only
entered after successful GPIO initialization. -/
theorem c9_failed_handle_safety (s : SysState) (f : Bool) (cfg : Config) (inp : CycleInput)
    (hg : s.gpio_initialized = false) (hr : inp.sensor = ReadResult.error) :
    led_on s f = (s, [])
    ∧ led_off s f = (s, [])
    ∧ loop_iteration cfg s inp = (s, [Event.cycleError, Event.sleepMs 1000]) := by
  refine ⟨?_, ?_, ?_⟩ <;> simp [led_on, led_off, loop_iteration, hg, hr]

/-- C9 witness: concrete instantiation on the Failed-handle state. -/
theorem c9_failed_handle_safety_witness :
    led_on w9s true = (w9s, [])
    ∧ led_off w9s true = (w9s, [])
    ∧ loop_iteration defaultConfig w9s w9ir = (w9s, [Event.cycleError, Event.sleepMs 1000]) :=
  c9_failed_handle_safety w9s true defaultConfig w9ir rfl rfl

/-- Sample iteration environment for C10: first active sample at clock 3. -/
def w10i : CycleInput :=
  { sensor := ReadResult.ok true, now := 3, timestamp := "t", ledOnFault := false,
    ledOffFault := false, captureFault := false, pathExists := true, smtpFail := false }

/-- C10 counterexample: with the non-negative cooldown 5 and the first
active sensor sample at clock value 3, the trigger is NOT accepted (the
test 3 − 0 > 5 fails): the claim's unconditional first-sample acceptance
for every non-negative cooldown is false. -/
theorem c10_counterexample :
    w10i.sensor = ReadResult.ok true
    ∧ (0 : Int) ≤ ({ cooldown := 5, hold := 10 } : Config).cooldown
    ∧ loop_iteration { cooldown := 5, hold := 10 } (initial_loop_state true true) w10i =
        (initial_loop_state true true, [Event.sleepMs 100]) := by decide

/-- C10 (amended): the last-accepted-trigger time is initialized to 0 (the
epoch), so the first active sample is accepted exactly when the current
clock value strictly exceeds the cooldown (the test is `now − 0 >
cooldown`); since real epoch time vastly exceeds the 2-second cooldown,
there is no effective initial cooldown window at startup. -/
theorem c10_first_trigger (cam em : Bool) (cfg : Config) (inp : CycleInput)
    (hs : inp.sensor = ReadResult.ok true) :
    (initial_loop_state cam em).motion_detected_time = 0
    ∧ (Event.captureInvoked ∈ (loop_iteration cfg (initial_loop_state cam em) inp).2 ↔
        inp.now > cfg.cooldown) := by
  refine ⟨rfl, ?_⟩
  have h := captureInvoked_mem_iff cfg (initial_loop_state cam em) inp true hs
  simpa [initial_loop_state] using h

/-- C10 witness: concrete instantiation (first active sample at clock 100,
accepted). -/
theorem c10_first_trigger_witness :
    (initial_loop_state true true).motion_detected_time = 0
    ∧ (Event.captureInvoked ∈
        (loop_iteration defaultConfig (initial_loop_state true true) w2i).2 ↔
        w2i.now > defaultConfig.cooldown) :=
  c10_first_trigger true true defaultConfig w2i rfl

end SmartAlert
